import Mathlib

/-!
Shallow embedding of the Shrek image-cycler extension (src/extension.ts).

The extension keeps a single module-level mutable `intervalId` (the repeating
timer handle), persists a `Settings` object under the key
"imageCycleSettings" in the host's key-value store, and exposes the
operations `activate`, `openSettings` (whose message handler dispatches
`saveSettings`, `startCycle`, `stopCycle`), `startImageCycle`,
`stopImageCycle`, `showRandomImage` and `deactivate`.

The embedding makes the implicit state explicit:
  - `store` models `context.globalState` at the key "imageCycleSettings"
    (`none` = key absent, i.e. `get` returns `undefined`);
  - `intervalId` models the module variable of the same name; the `Timer`
    value records the callback's captured data (the snapshot of
    `settings.imageUrls`) and the period passed to `setInterval`;
  - `activeTimers` models which timers the host runtime currently has
    live: `setInterval` adds a fresh id, `clearInterval` removes it.
    This lets "at most one concurrent timer" be a real statement rather
    than one baked into the state type;
  - side effects (notifications, panel creation, scheduling) become an
    explicit `Event` trace;
  - `Math.random()` becomes an explicit rational parameter `r`
    (the JS contract is `0 ≤ r < 1`), and `Math.floor (r * len)` becomes
    `Int.floor`.
-/

namespace ImageCycler

/-- The persisted `Settings` interface of extension.ts:
`imageUrls : string[]` and `intervalMinutes : number` (an integer here,
since the settings form submits `parseInt(interval)`). -/
structure Settings where
  imageUrls : List String
  intervalMinutes : Int
deriving DecidableEq, Repr

/-- The six built-in default image URLs (`defaultImages` in extension.ts). -/
def defaultImages : List String :=
  [ "https://i.imgur.com/lBsiH4u.png",
    "https://i.imgur.com/771nDEc.png",
    "https://i.imgur.com/oL0mqN5.png",
    "https://i.imgur.com/2hJcobD.png",
    "https://i.imgur.com/9BzZDag.png",
    "https://i.imgur.com/O4u6CXU.png" ]

/-- The default settings object written by `activate` and used as the
`get` fallback: the six default images with a 4-minute interval. -/
def defaultSettings : Settings :=
  { imageUrls := defaultImages, intervalMinutes := 4 }

/-- The three notification severities of `vscode.window.show*Message`. -/
inductive Notification where
  | info (msg : String)
  | warning (msg : String)
  | error (msg : String)
deriving DecidableEq, Repr

/-- Observable side effects of the controller, in program order. -/
inductive Event where
  /-- A `vscode.window.show{Information,Warning,Error}Message` call. -/
  | notify (n : Notification)
  /-- `createWebviewPanel` for the image viewer showing `url`
  (`none` models a JS `undefined` element access). -/
  | display (url : Option String)
  /-- `setInterval` returning handle `timerId` with period `periodMs`. -/
  | schedule (timerId : Nat) (periodMs : Int)
  /-- `clearInterval` on handle `timerId`. -/
  | cancel (timerId : Nat)
  /-- `registerCommand` for the named command. -/
  | registerCommand (name : String)
  /-- `createWebviewPanel` for the settings form rendering `settings`. -/
  | renderSettings (settings : Settings)
deriving DecidableEq, Repr

/-- A live repeating timer: its host handle `id` plus the data the
`setInterval` callback closed over in `startImageCycle`
(`settings.imageUrls`) and the period it was scheduled with. -/
structure Timer where
  id : Nat
  urls : List String
  periodMs : Int
deriving DecidableEq, Repr

/-- The whole mutable state of the extension process. -/
structure ControllerState where
  /-- `context.globalState` at key "imageCycleSettings". -/
  store : Option Settings
  /-- The module-level `let intervalId : NodeJS.Timeout | undefined`. -/
  intervalId : Option Timer
  /-- Handles of timers the host currently has live. -/
  activeTimers : List Nat
  /-- Next fresh handle the host will hand out from `setInterval`. -/
  nextTimerId : Nat
deriving DecidableEq, Repr

/-- The state at process start: nothing persisted, no timer. -/
def initialState : ControllerState :=
  { store := none, intervalId := none, activeTimers := [], nextTimerId := 0 }

/-- `context.globalState.get("imageCycleSettings", defaults)`: the stored
value when present, else the default object — exactly the read performed
by `openSettings` and `startImageCycle`. -/
def getSettings (s : ControllerState) : Settings :=
  s.store.getD defaultSettings

/-- `Math.floor(r * imageUrls.length)` for one draw `r` of
`Math.random()`. -/
def randomIndex (r : ℚ) (len : Nat) : Int :=
  Int.floor (r * (len : ℚ))

/-- JS array indexing `imageUrls[idx]` with an `Int` index:
`undefined` (`none`) when out of range. -/
def jsIndex (imageUrls : List String) (idx : Int) : Option String :=
  if idx < 0 then none else imageUrls.get? idx.toNat

/-- `showRandomImage(imageUrls)`: picks `imageUrls[floor(r * length)]`
and opens a fresh webview panel displaying it. -/
def showRandomImage (r : ℚ) (imageUrls : List String) : List Event :=
  [Event.display (jsIndex imageUrls (randomIndex r imageUrls.length))]

/-- `startImageCycle(context)`: reads settings (with defaults), errors on
an empty URL list, warns when `intervalId` is already set, otherwise
calls `setInterval` (storing the handle in `intervalId`), then
`showRandomImage`, then reports success — in that source order. -/
def startImageCycle (r : ℚ) (s : ControllerState) :
    ControllerState × List Event :=
  let settings := getSettings s
  if settings.imageUrls.length = 0 then
    (s, [Event.notify (Notification.error
      "Please set image URLs in the settings first")])
  else if s.intervalId.isSome then
    (s, [Event.notify (Notification.warning
      "Image cycle is already running")])
  else
    let t : Timer :=
      { id := s.nextTimerId,
        urls := settings.imageUrls,
        periodMs := settings.intervalMinutes * 60 * 1000 }
    ({ s with
        intervalId := some t,
        activeTimers := s.activeTimers ++ [t.id],
        nextTimerId := s.nextTimerId + 1 },
      Event.schedule t.id t.periodMs ::
        showRandomImage r settings.imageUrls ++
        [Event.notify (Notification.info "Started image cycle")])

/-- `stopImageCycle()`: when `intervalId` is set, `clearInterval` it,
clear the handle and report success; otherwise warn. -/
def stopImageCycle (s : ControllerState) : ControllerState × List Event :=
  match s.intervalId with
  | some t =>
      ({ s with
          intervalId := none,
          activeTimers := s.activeTimers.filter (fun i => i != t.id) },
        [Event.cancel t.id,
         Event.notify (Notification.info "Stopped image cycle")])
  | none =>
      (s, [Event.notify (Notification.warning "Image cycle is not running")])

/-- The `saveSettings` branch of the webview message handler: a full
`globalState.update` replacing the stored value with the message's
settings object verbatim, then a success notification. -/
def saveSettings (newSettings : Settings) (s : ControllerState) :
    ControllerState × List Event :=
  ({ s with store := some newSettings },
    [Event.notify (Notification.info "Settings saved successfully")])

/-- `activate(context)`: registers the command, then writes the default
settings only when `globalState.get("imageCycleSettings")` is absent
(a present `Settings` object is always truthy in JS). -/
def activate (s : ControllerState) : ControllerState × List Event :=
  match s.store with
  | none =>
      ({ s with store := some defaultSettings },
        [Event.registerCommand "extension.openSettings"])
  | some _ =>
      (s, [Event.registerCommand "extension.openSettings"])

/-- `openSettings(context)` up to its message subscription: reads the
current settings (with defaults) and renders the settings panel with
them; mutates nothing. -/
def openSettings (s : ControllerState) : ControllerState × List Event :=
  (s, [Event.renderSettings (getSettings s)])

/-- `deactivate()`: `clearInterval(intervalId)` when set — note the
source does NOT reset `intervalId` to `undefined` here. -/
def deactivate (s : ControllerState) : ControllerState × List Event :=
  match s.intervalId with
  | some t =>
      ({ s with activeTimers := s.activeTimers.filter (fun i => i != t.id) },
        [Event.cancel t.id])
  | none => (s, [])

/-- One firing of the repeating timer: when `intervalId` holds a timer
that the host still has live, the callback runs
`showRandomImage(settings.imageUrls)` on its captured snapshot. -/
def tick (r : ℚ) (s : ControllerState) : ControllerState × List Event :=
  match s.intervalId with
  | some t =>
      if t.id ∈ s.activeTimers then (s, showRandomImage r t.urls)
      else (s, [])
  | none => (s, [])

/-- The operations a user (or the host runtime) can drive the controller
with; the rational arguments are the `Math.random()` draws consumed. -/
inductive Op where
  | activate
  | openSettings
  | saveSettings (settings : Settings)
  | startCycle (r : ℚ)
  | stopCycle
  | deactivate
  | tick (r : ℚ)

/-- Dispatch one operation. -/
def step (op : Op) (s : ControllerState) : ControllerState × List Event :=
  match op with
  | Op.activate => activate s
  | Op.openSettings => openSettings s
  | Op.saveSettings n => saveSettings n s
  | Op.startCycle r => startImageCycle r s
  | Op.stopCycle => stopImageCycle s
  | Op.deactivate => deactivate s
  | Op.tick r => tick r s

/-- Run a sequence of operations from a state, keeping only the state. -/
def run (ops : List Op) (s : ControllerState) : ControllerState :=
  ops.foldl (fun s op => (step op s).fst) s

/-- The timer invariant: the host has at most one live timer, and any
live timer is the one recorded in `intervalId`. -/
def timerInv (s : ControllerState) : Prop :=
  s.activeTimers.length ≤ 1 ∧
    ∀ i ∈ s.activeTimers, ∃ t, s.intervalId = some t ∧ t.id = i

/-- Does a `Bool`-valued check say the event is an image display? -/
def isDisplay : Event → Bool
  | Event.display _ => true
  | _ => false

/-- Does a `Bool`-valued check say the event is a `setInterval` call? -/
def isSchedule : Event → Bool
  | Event.schedule _ _ => true
  | _ => false

/-- A concrete state with one URL persisted and no timer running. -/
def freshState : ControllerState :=
  { store := some { imageUrls := ["a"], intervalMinutes := 1 },
    intervalId := none, activeTimers := [], nextTimerId := 0 }

/-- A concrete state persisting an empty URL list and no timer. -/
def emptyUrlsState : ControllerState :=
  { store := some { imageUrls := [], intervalMinutes := 5 },
    intervalId := none, activeTimers := [], nextTimerId := 0 }

/-- A concrete state with a cycle running on two URLs at 7 minutes. -/
def runningState : ControllerState :=
  { store := some { imageUrls := ["a", "b"], intervalMinutes := 7 },
    intervalId := some { id := 0, urls := ["a", "b"], periodMs := 420000 },
    activeTimers := [0], nextTimerId := 1 }

/-- Every single operation preserves the timer invariant. -/
theorem timerInv_step (op : Op) (s : ControllerState) (h : timerInv s) :
    timerInv (step op s).fst := by
  obtain ⟨hlen, hmem⟩ := h
  cases op with
  | activate =>
      cases hs : s.store with
      | none => exact ⟨by simpa [step, activate, hs] using hlen,
          by simpa [step, activate, hs] using hmem⟩
      | some v => exact ⟨by simpa [step, activate, hs] using hlen,
          by simpa [step, activate, hs] using hmem⟩
  | openSettings => exact ⟨hlen, hmem⟩
  | saveSettings n => exact ⟨by simpa [step, saveSettings] using hlen,
      by simpa [step, saveSettings] using hmem⟩
  | stopCycle =>
      cases ht : s.intervalId with
      | none => exact ⟨by simpa [step, stopImageCycle, ht] using hlen,
          by simpa [step, stopImageCycle, ht] using hmem⟩
      | some t =>
          constructor
          · simp only [step, stopImageCycle, ht]
            exact le_trans (List.length_filter_le _ _) hlen
          · intro i hi
            simp only [step, stopImageCycle, ht, List.mem_filter] at hi
            obtain ⟨hi1, hi2⟩ := hi
            obtain ⟨t', ht', hid⟩ := hmem i hi1
            rw [ht] at ht'
            injection ht' with ht'
            subst ht'
            subst hid
            simp at hi2
  | deactivate =>
      cases ht : s.intervalId with
      | none => exact ⟨by simpa [step, deactivate, ht] using hlen,
          by simpa [step, deactivate, ht] using hmem⟩
      | some t =>
          constructor
          · simp only [step, deactivate, ht]
            exact le_trans (List.length_filter_le _ _) hlen
          · intro i hi
            simp only [step, deactivate, ht, List.mem_filter] at hi
            obtain ⟨hi1, hi2⟩ := hi
            obtain ⟨t', ht', hid⟩ := hmem i hi1
            rw [ht] at ht'
            injection ht' with ht'
            subst ht'
            subst hid
            simp at hi2
  | tick r =>
      cases ht : s.intervalId with
      | none => exact ⟨by simpa [step, tick, ht] using hlen,
          by simpa [step, tick, ht] using hmem⟩
      | some t =>
          by_cases hmem' : t.id ∈ s.activeTimers
          · exact ⟨by simpa [step, tick, ht, hmem'] using hlen,
              by simpa [step, tick, ht, hmem'] using hmem⟩
          · exact ⟨by simpa [step, tick, ht, hmem'] using hlen,
              by simpa [step, tick, ht, hmem'] using hmem⟩
  | startCycle r =>
      by_cases hempty : (getSettings s).imageUrls.length = 0
      · exact ⟨by simpa [step, startImageCycle, hempty] using hlen,
          by simpa [step, startImageCycle, hempty] using hmem⟩
      · cases ht : s.intervalId with
        | some t =>
            exact ⟨by simpa [step, startImageCycle, hempty, ht] using hlen,
              by simpa [step, startImageCycle, hempty, ht] using hmem⟩
        | none =>
            have hempty' : s.activeTimers = [] := by
              cases hat : s.activeTimers with
              | nil => rfl
              | cons a l =>
                  obtain ⟨t', ht', _⟩ := hmem a (by simp [hat])
                  rw [ht] at ht'
                  exact absurd ht' (by simp)
            constructor
            · simp [step, startImageCycle, hempty, ht, hempty']
            · intro i hi
              simp [step, startImageCycle, hempty, ht, hempty'] at hi ⊢
              subst hi
              rfl

/-- Running any operation sequence from the initial state keeps the
timer invariant. -/
theorem timerInv_run (ops : List Op) : timerInv (run ops initialState) := by
  have hinit : timerInv initialState := by
    constructor
    · simp [initialState]
    · intro i hi
      simp [initialState] at hi
  have general : ∀ (l : List Op) (s : ControllerState), timerInv s →
      timerInv (run l s) := by
    intro l
    induction l with
    | nil => intro s hs; exact hs
    | cons op l ih =>
        intro s hs
        exact ih _ (timerInv_step op s hs)
  exact general ops initialState hinit

/-- C1: from the initial state (no timer), no sequence of operations
(`activate`, `openSettings`, `saveSettings`, `startCycle`, `stopCycle`,
`deactivate`, timer ticks) ever leaves the host with more than one live
repeating timer: the controller holds zero or one timer at any time. -/
theorem at_most_one_active_timer (ops : List Op) :
    (run ops initialState).activeTimers.length ≤ 1 :=
  (timerInv_run ops).1

/-- C2: whenever the persisted-or-defaulted settings have an empty
`imageUrls`, `startImageCycle` emits exactly the error notification and
returns the state unchanged — no timer is created and the persisted
settings are untouched. -/
theorem startCycle_empty_urls (r : ℚ) (s : ControllerState)
    (h : (getSettings s).imageUrls = []) :
    startImageCycle r s =
      (s, [Event.notify (Notification.error
        "Please set image URLs in the settings first")]) := by
  simp [startImageCycle, h]

/-- Witness for C2 at a concrete state persisting an empty URL list. -/
theorem startCycle_empty_urls_witness :
    (getSettings emptyUrlsState).imageUrls = [] ∧
    startImageCycle 0 emptyUrlsState =
      (emptyUrlsState,
        [Event.notify (Notification.error
          "Please set image URLs in the settings first")]) :=
  ⟨rfl, startCycle_empty_urls 0 emptyUrlsState rfl⟩

/-- C3: calling `startImageCycle` while a cycle is active (and the URL
list is non-empty) emits exactly the warning notification and is a
no-op: the state, in particular the timer handle, the set of live
timers and the persisted settings, is unchanged, so exactly one timer
remains live. -/
theorem startCycle_already_running (r : ℚ) (s : ControllerState) (t : Timer)
    (hne : (getSettings s).imageUrls ≠ [])
    (ht : s.intervalId = some t)
    (hone : s.activeTimers.length = 1) :
    startImageCycle r s =
      (s, [Event.notify (Notification.warning
        "Image cycle is already running")]) ∧
    (startImageCycle r s).fst.activeTimers.length = 1 ∧
    (startImageCycle r s).fst.intervalId = some t ∧
    (startImageCycle r s).fst.store = s.store := by
  have hlen : ¬ (getSettings s).imageUrls.length = 0 := by
    simpa [List.length_eq_zero] using hne
  refine ⟨?_, ?_, ?_, ?_⟩
  · simp [startImageCycle, hlen, ht]
  · simp [startImageCycle, hlen, ht, hone]
  · simp [startImageCycle, hlen, ht]
  · simp [startImageCycle, hlen, ht]

/-- Witness for C3 at the concrete running state. -/
theorem startCycle_already_running_witness :
    (getSettings runningState).imageUrls ≠ [] ∧
    runningState.intervalId =
      some { id := 0, urls := ["a", "b"], periodMs := 420000 } ∧
    runningState.activeTimers.length = 1 ∧
    startImageCycle 0 runningState =
      (runningState, [Event.notify (Notification.warning
        "Image cycle is already running")]) :=
  ⟨by decide, rfl, rfl,
    (startCycle_already_running 0 runningState
      { id := 0, urls := ["a", "b"], periodMs := 420000 }
      (by decide) rfl rfl).1⟩

/-- C4: `stopImageCycle` with no active timer emits exactly the warning
notification and changes nothing; with an active timer it cancels that
timer (its handle is no longer live), clears `intervalId`, leaves the
persisted settings alone and reports success. -/
theorem stopCycle_spec (s : ControllerState) :
    (s.intervalId = none →
      stopImageCycle s =
        (s, [Event.notify (Notification.warning
          "Image cycle is not running")])) ∧
    (∀ t, s.intervalId = some t →
      (stopImageCycle s).fst.intervalId = none ∧
      t.id ∉ (stopImageCycle s).fst.activeTimers ∧
      (stopImageCycle s).fst.store = s.store ∧
      (stopImageCycle s).snd =
        [Event.cancel t.id,
         Event.notify (Notification.info "Stopped image cycle")]) := by
  constructor
  · intro h
    simp [stopImageCycle, h]
  · intro t ht
    refine ⟨?_, ?_, ?_, ?_⟩ <;> simp [stopImageCycle, ht, List.mem_filter]

/-- Witness for C4: a stop with no timer and a stop with a timer. -/
theorem stopCycle_spec_witness :
    stopImageCycle initialState =
      (initialState, [Event.notify (Notification.warning
        "Image cycle is not running")]) ∧
    ((stopImageCycle runningState).fst.intervalId = none ∧
      (0 : Nat) ∉ (stopImageCycle runningState).fst.activeTimers ∧
      (stopImageCycle runningState).fst.store = runningState.store ∧
      (stopImageCycle runningState).snd =
        [Event.cancel 0,
         Event.notify (Notification.info "Stopped image cycle")]) :=
  ⟨(stopCycle_spec initialState).1 rfl,
    (stopCycle_spec runningState).2
      { id := 0, urls := ["a", "b"], periodMs := 420000 } rfl⟩

/-- C5: `activate` writes the built-in defaults (the six fixed URLs,
interval 4) exactly when no settings value is persisted; when any value
is present it never overwrites it. -/
theorem activate_defaults (s : ControllerState) :
    (s.store = none →
      (activate s).fst = { s with store := some defaultSettings }) ∧
    (∀ v, s.store = some v → (activate s).fst = s) ∧
    defaultSettings.imageUrls.length = 6 ∧
    defaultSettings.intervalMinutes = 4 := by
  refine ⟨?_, ?_, rfl, rfl⟩
  · intro h
    simp [activate, h]
  · intro v h
    simp [activate, h]

/-- Witness for C5: first activation writes the defaults; activation on
a user-modified store leaves it unchanged. -/
theorem activate_defaults_witness :
    (activate initialState).fst =
      { initialState with store := some defaultSettings } ∧
    (activate freshState).fst = freshState :=
  ⟨(activate_defaults initialState).1 rfl,
    (activate_defaults freshState).2.1
      { imageUrls := ["a"], intervalMinutes := 1 } rfl⟩

/-- C6: saving a settings object is a verbatim full replace: after the
`saveSettings` handler runs with `n`, the store holds exactly `n`, the
read performed by `startImageCycle` and `openSettings`
(`globalState.get` with defaults) returns exactly `n`, and the settings
panel would render exactly `n` — no merge with the prior value and no
field coercion. -/
theorem saveSettings_roundtrip (n : Settings) (s : ControllerState) :
    (saveSettings n s).fst.store = some n ∧
    getSettings (saveSettings n s).fst = n ∧
    (openSettings (saveSettings n s).fst).snd = [Event.renderSettings n] := by
  refine ⟨rfl, ?_, ?_⟩ <;> simp [saveSettings, getSettings, openSettings]

/-- C7 counterexample: at a concrete fresh state with one URL the trace
of a successful `startImageCycle` is `setInterval` first, then the
immediate display, then the success message — so the display does NOT
precede the scheduling, refuting the claimed order. -/
theorem startCycle_display_precedes_schedule_cex :
    (startImageCycle 0 freshState).snd =
      [Event.schedule 0 60000, Event.display (some "a"),
       Event.notify (Notification.info "Started image cycle")] ∧
    ¬ ((startImageCycle 0 freshState).snd.findIdx isDisplay <
        (startImageCycle 0 freshState).snd.findIdx isSchedule) := by
  have hidx : randomIndex 0 (1 : Nat) = 0 := by simp [randomIndex]
  have htrace : (startImageCycle 0 freshState).snd =
      [Event.schedule 0 60000, Event.display (some "a"),
       Event.notify (Notification.info "Started image cycle")] := by
    simp [startImageCycle, freshState, getSettings, showRandomImage,
      jsIndex, hidx]
  refine ⟨htrace, ?_⟩
  rw [htrace]
  decide

/-- C7 (amended): a successful `startImageCycle` (non-empty URLs, no
cycle active) emits exactly: the scheduling of the repeating timer with
period `intervalMinutes * 60 * 1000` ms, THEN the immediate display of
the randomly-indexed image, then the success notification; it records
the timer (with the URL snapshot) in `intervalId`, leaves the persisted
settings unchanged, and every later firing of that timer selects a
random index into `imageUrls` and displays that image. -/
theorem startCycle_success_trace (r : ℚ) (s : ControllerState)
    (h1 : (getSettings s).imageUrls ≠ [])
    (h2 : s.intervalId = none) :
    (startImageCycle r s).snd =
      [Event.schedule s.nextTimerId
         ((getSettings s).intervalMinutes * 60 * 1000),
       Event.display (jsIndex (getSettings s).imageUrls
         (randomIndex r (getSettings s).imageUrls.length)),
       Event.notify (Notification.info "Started image cycle")] ∧
    (startImageCycle r s).fst.intervalId =
      some { id := s.nextTimerId, urls := (getSettings s).imageUrls,
             periodMs := (getSettings s).intervalMinutes * 60 * 1000 } ∧
    (startImageCycle r s).fst.store = s.store ∧
    ∀ q, (tick q (startImageCycle r s).fst).snd =
      [Event.display (jsIndex (getSettings s).imageUrls
        (randomIndex q (getSettings s).imageUrls.length))] := by
  have hlen : ¬ (getSettings s).imageUrls.length = 0 := by
    simpa [List.length_eq_zero] using h1
  refine ⟨?_, ?_, ?_, ?_⟩
  · simp [startImageCycle, hlen, h2, showRandomImage]
  · simp [startImageCycle, hlen, h2]
  · simp [startImageCycle, hlen, h2]
  · intro q
    simp [startImageCycle, hlen, h2, tick, showRandomImage]

/-- Witness for the amended C7 at the concrete fresh state. -/
theorem startCycle_success_trace_witness :
    (getSettings freshState).imageUrls ≠ [] ∧
    (startImageCycle 0 freshState).snd =
      [Event.schedule freshState.nextTimerId
         ((getSettings freshState).intervalMinutes * 60 * 1000),
       Event.display (jsIndex (getSettings freshState).imageUrls
         (randomIndex 0 (getSettings freshState).imageUrls.length)),
       Event.notify (Notification.info "Started image cycle")] ∧
    (tick 0 (startImageCycle 0 freshState).fst).snd =
      [Event.display (jsIndex (getSettings freshState).imageUrls
        (randomIndex 0 (getSettings freshState).imageUrls.length))] := by
  refine ⟨by decide, ?_, ?_⟩
  · exact (startCycle_success_trace 0 freshState (by decide) rfl).1
  · exact (startCycle_success_trace 0 freshState (by decide) rfl).2.2.2 0

/-- C8: with a random source always yielding index 0 (i.e. every draw
`q` satisfies `floor (q * length) = 0`), the immediate display of a
successful start shows `imageUrls[0]`, and so does every subsequent
firing of the scheduled timer. -/
theorem index_zero_always_displays_head (r0 : ℚ) (s : ControllerState)
    (h1 : (getSettings s).imageUrls ≠ [])
    (h2 : s.intervalId = none)
    (hr0 : randomIndex r0 (getSettings s).imageUrls.length = 0) :
    Event.display ((getSettings s).imageUrls.get? 0) ∈
      (startImageCycle r0 s).snd ∧
    ∀ q, randomIndex q (getSettings s).imageUrls.length = 0 →
      (tick q (startImageCycle r0 s).fst).snd =
        [Event.display ((getSettings s).imageUrls.get? 0)] := by
  have hlen : ¬ (getSettings s).imageUrls.length = 0 := by
    simpa [List.length_eq_zero] using h1
  constructor
  · simp [startImageCycle, hlen, h2, showRandomImage, jsIndex, hr0]
  · intro q hq
    simp [startImageCycle, hlen, h2, tick, showRandomImage, jsIndex, hq]

/-- Witness for C8 at the concrete fresh state with draw 0. -/
theorem index_zero_always_displays_head_witness :
    (getSettings freshState).imageUrls ≠ [] ∧
    Event.display ((getSettings freshState).imageUrls.get? 0) ∈
      (startImageCycle 0 freshState).snd ∧
    (tick 0 (startImageCycle 0 freshState).fst).snd =
      [Event.display ((getSettings freshState).imageUrls.get? 0)] := by
  have hr0 : randomIndex 0 (getSettings freshState).imageUrls.length = 0 := by
    simp [randomIndex, getSettings, freshState]
  refine ⟨by decide, ?_, ?_⟩
  · exact (index_zero_always_displays_head 0 freshState (by decide) rfl hr0).1
  · exact (index_zero_always_displays_head 0 freshState
      (by decide) rfl hr0).2 0 hr0

/-- C9: for a non-empty URL list and any random draw `0 ≤ r < 1`, the
index `floor (r * length)` computed by `showRandomImage` lies in
`[0, length)`, so the JS array access yields an actual element of the
list (never `undefined`). -/
theorem randomIndex_in_bounds (r : ℚ) (urls : List String)
    (hne : urls ≠ []) (h0 : 0 ≤ r) (h1 : r < 1) :
    0 ≤ randomIndex r urls.length ∧
    randomIndex r urls.length < (urls.length : Int) ∧
    ∃ u, jsIndex urls (randomIndex r urls.length) = some u ∧ u ∈ urls := by
  have hpos : 0 < urls.length := List.length_pos.2 hne
  have hposQ : (0 : ℚ) < (urls.length : ℚ) := by exact_mod_cast hpos
  have hge : 0 ≤ randomIndex r urls.length := by
    unfold randomIndex
    exact Int.floor_nonneg.2 (mul_nonneg h0 (le_of_lt hposQ))
  have hlt : randomIndex r urls.length < (urls.length : Int) := by
    unfold randomIndex
    rw [Int.floor_lt]
    push_cast
    exact mul_lt_of_lt_one_left hposQ h1
  have htoNat : (randomIndex r urls.length).toNat < urls.length := by omega
  have hjs : jsIndex urls (randomIndex r urls.length) =
      urls.get? (randomIndex r urls.length).toNat := by
    simp [jsIndex, not_lt.2 hge]
  exact ⟨hge, hlt,
    urls.get ⟨(randomIndex r urls.length).toNat, htoNat⟩,
    by rw [hjs, List.get?_eq_get htoNat],
    List.get_mem urls _ _⟩

/-- Witness for C9 on a two-element list with draw 1/2. -/
theorem randomIndex_in_bounds_witness :
    (["a", "b"] : List String) ≠ [] ∧ (0 : ℚ) ≤ 1 / 2 ∧ (1 / 2 : ℚ) < 1 ∧
    (0 ≤ randomIndex (1 / 2) (["a", "b"] : List String).length ∧
      randomIndex (1 / 2) (["a", "b"] : List String).length <
        ((["a", "b"] : List String).length : Int) ∧
      ∃ u, jsIndex ["a", "b"]
          (randomIndex (1 / 2) (["a", "b"] : List String).length) = some u ∧
        u ∈ (["a", "b"] : List String)) :=
  ⟨by decide, by norm_num, by norm_num,
    randomIndex_in_bounds (1 / 2) ["a", "b"] (by decide)
      (by norm_num) (by norm_num)⟩

/-- C10: the `saveSettings` handler changes only the persisted store:
the timer handle (with its captured URL snapshot and period) and the set
of live timers are untouched, and a timer firing after the save still
displays from the snapshot taken when the cycle started — the events of
a tick are identical before and after the save. -/
theorem saveSettings_preserves_running_cycle (n : Settings)
    (s : ControllerState) :
    (saveSettings n s).fst.intervalId = s.intervalId ∧
    (saveSettings n s).fst.activeTimers = s.activeTimers ∧
    (saveSettings n s).fst.store = some n ∧
    ∀ r, tick r (saveSettings n s).fst =
      ((saveSettings n s).fst, (tick r s).snd) := by
  refine ⟨rfl, rfl, rfl, ?_⟩
  intro r
  cases ht : s.intervalId with
  | none => simp [tick, saveSettings, ht]
  | some t =>
      by_cases hm : t.id ∈ s.activeTimers <;>
        simp [tick, saveSettings, ht, hm]

end ImageCycler
